import Mathlib

/-!
Shallow embedding of the realtime fan-out service of the parking backend
(src/parking-backend/services/websocketService.js).

JS Maps are modelled as association lists with Map.set / Map.delete
semantics (set overwrites an existing key in place, otherwise appends);
JS Sets as duplicate-free lists with Set.add / Set.delete semantics.
Each socket.emit appends a (socketId, event) pair to a global emission
log (outbox); the outbound queue of one connection is the subsequence of
the log addressed to its socket id.  Room membership maintained by the
socket.io adapter (socket.join / socket.leave) is the rooms field; the
separate roomSubscriptions tracking map of the service is modelled
verbatim as well.  Timestamps (new Date().toISOString()) are passed in
as an explicit now argument; database reads are passed in as explicit
result arguments.
-/

namespace WebsocketService

/-- A live socket as produced by the authentication middleware:
userId, userRole, userEmail and userName are the fields cached on the
socket object at connect time (websocketService.js lines 42-45). -/
structure Socket where
  sid : String
  userId : String
  userRole : String
  userEmail : String
  userName : String
deriving DecidableEq, Repr

/-- The value stored in the connectedUsers map (lines 59-64). -/
structure ConnInfo where
  socketId : String
  connectedAt : String
  role : String
deriving DecidableEq, Repr

/-- An outbound event: its event name and the list of payload fields
(key-value pairs, in object-literal order). -/
structure Event where
  name : String
  fields : List (String × String)
deriving DecidableEq, Repr

/-- Whole-service state: the io handle (set by initializeWebSocket),
the live sockets, the adapter room membership, the connectedUsers map,
the roomSubscriptions map and the emission log. -/
structure ServerState where
  ioInit : Bool
  sockets : List Socket
  rooms : List (String × String)
  connectedUsers : List (String × ConnInfo)
  roomSubscriptions : List (String × List String)
  outbox : List (String × Event)
deriving DecidableEq, Repr

/-- JS Map.has. -/
def mapHas {α : Type} (m : List (String × α)) (k : String) : Bool :=
  m.any (fun p => p.1 = k)

/-- JS Map.get (none models undefined). -/
def mapGet {α : Type} (m : List (String × α)) (k : String) : Option α :=
  (m.find? (fun p => p.1 = k)).map Prod.snd

/-- JS Map.set: overwrite in place if the key exists, else append. -/
def mapSet {α : Type} (m : List (String × α)) (k : String) (v : α) :
    List (String × α) :=
  if mapHas m k then m.map (fun p => if p.1 = k then (k, v) else p)
  else m ++ [(k, v)]

/-- JS Map.delete. -/
def mapDelete {α : Type} (m : List (String × α)) (k : String) :
    List (String × α) :=
  m.filter (fun p => ¬ p.1 = k)

/-- JS Set.add on a duplicate-free list. -/
def setAdd (s : List String) (x : String) : List String :=
  if x ∈ s then s else s ++ [x]

/-- JS Set.delete. -/
def setDelete (s : List String) (x : String) : List String :=
  s.filter (fun y => ¬ y = x)

/-- socket.emit(eventName, payload): append to the emission log. -/
def emitToSocket (st : ServerState) (sid : String) (e : Event) : ServerState :=
  { st with outbox := st.outbox ++ [(sid, e)] }

/-- The socket ids currently joined to a room (the adapter view the
io.to(room).emit delivery path consults). -/
def socketsInRoom (st : ServerState) (room : String) : List String :=
  (st.sockets.map Socket.sid).filter (fun sid => (sid, room) ∈ st.rooms)

/-- io.to(room).emit: enqueue the event on every room member. -/
def emitToRoom (st : ServerState) (room : String) (e : Event) : ServerState :=
  { st with outbox := st.outbox ++ (socketsInRoom st room).map (fun sid => (sid, e)) }

/-- io.emit: enqueue the event on every connected socket. -/
def emitToAll (st : ServerState) (e : Event) : ServerState :=
  { st with outbox := st.outbox ++ st.sockets.map (fun s => (s.sid, e)) }

/-- socket.join(room): adapter membership is a set. -/
def socketJoin (st : ServerState) (sid room : String) : ServerState :=
  if (sid, room) ∈ st.rooms then st
  else { st with rooms := st.rooms ++ [(sid, room)] }

/-- socket.leave(room). -/
def socketLeave (st : ServerState) (sid room : String) : ServerState :=
  { st with rooms := st.rooms.filter (fun p => ¬ p = (sid, room)) }

/-- The outbound queue of one connection: the events of the emission
log addressed to its socket id, in emission order. -/
def queueOf (st : ServerState) (sid : String) : List Event :=
  (st.outbox.filter (fun p => p.1 = sid)).map Prod.snd

/-- subscribers_of over the roomSubscriptions tracking map. -/
def subscribersOf (st : ServerState) (room : String) : List String :=
  (mapGet st.roomSubscriptions room).getD []

/-- Does the event payload contain a field of the given key. -/
def hasField (e : Event) (k : String) : Bool :=
  e.fields.any (fun p => p.1 = k)

/-- JS truthiness of an optional string: undefined and the empty string
are falsy. -/
def falsy : Option String → Bool
  | none => true
  | some s => s = ""

/-- Payload of a subscribe message: room and type (undefined when the
client omits them); lines 126-151 destructure these two fields. -/
structure SubscribeData where
  room : Option String
  type : Option String
deriving DecidableEq, Repr

/-- Payload of an unsubscribe message (lines 154-155). -/
structure UnsubscribeData where
  room : Option String
deriving DecidableEq, Repr

/-- The empty module state (io unset, no connections). -/
def initialState : ServerState :=
  { ioInit := false, sockets := [], rooms := [], connectedUsers := [],
    roomSubscriptions := [], outbox := [] }

/-- initializeWebSocket(server): sets the io handle (line 11). -/
def initializeWebSocket (st : ServerState) : ServerState :=
  { st with ioInit := true }

/-- The connection handler (lines 55-119): add the socket, store its
entry in connectedUsers keyed by userId, join the personal room, join
the admin room when the cached role is admin, and emit the connected
welcome event. -/
def handleConnection (st : ServerState) (sock : Socket) (now : String) :
    ServerState :=
  let st1 : ServerState :=
    { st with
      sockets := st.sockets ++ [sock],
      connectedUsers := (mapSet st.connectedUsers sock.userId
        { socketId := sock.sid, connectedAt := now, role := sock.userRole }) }
  let st2 := socketJoin st1 sock.sid ("user:" ++ sock.userId)
  let st3 := if sock.userRole = "admin" then socketJoin st2 sock.sid "admin" else st2
  emitToSocket st3 sock.sid
    { name := "connected",
      fields := [("message", "Connected to real-time updates"),
                 ("userId", sock.userId), ("timestamp", now)] }

/-- handleRoomSubscription (lines 126-151): reject when room or type is
falsy; reject when the type field is the literal admin and the cached
role is not admin; otherwise join the room, record the userId in the
roomSubscriptions tracking set and ack with a subscribed event. -/
def handleRoomSubscription (st : ServerState) (sock : Socket)
    (data : SubscribeData) (now : String) : ServerState :=
  if falsy data.room || falsy data.type then
    emitToSocket st sock.sid
      { name := "error",
        fields := [("message", "Room and type are required for subscription")] }
  else if data.type = some "admin" ∧ ¬ sock.userRole = "admin" then
    emitToSocket st sock.sid
      { name := "error", fields := [("message", "Admin privileges required")] }
  else
    let room := data.room.getD ""
    let ty := data.type.getD ""
    let st1 := socketJoin st sock.sid room
    let st2 : ServerState :=
      { st1 with roomSubscriptions :=
          (mapSet st1.roomSubscriptions room
            (setAdd ((mapGet st1.roomSubscriptions room).getD []) sock.userId)) }
    emitToSocket st2 sock.sid
      { name := "subscribed",
        fields := [("room", room), ("type", ty), ("timestamp", now)] }

/-- handleRoomUnsubscription (lines 154-173): reject when room is
falsy; otherwise leave the room, drop the userId from the tracking set,
delete the set when it became empty, and ack with an unsubscribed
event. -/
def handleRoomUnsubscription (st : ServerState) (sock : Socket)
    (data : UnsubscribeData) (now : String) : ServerState :=
  if falsy data.room then
    emitToSocket st sock.sid
      { name := "error",
        fields := [("message", "Room is required for unsubscription")] }
  else
    let room := data.room.getD ""
    let st1 := socketLeave st sock.sid room
    let st2 : ServerState :=
      { st1 with roomSubscriptions :=
          (if mapHas st1.roomSubscriptions room then
            (let s := setDelete ((mapGet st1.roomSubscriptions room).getD []) sock.userId
             if s.length = 0 then mapDelete st1.roomSubscriptions room
             else mapSet st1.roomSubscriptions room s)
          else st1.roomSubscriptions) }
    emitToSocket st2 sock.sid
      { name := "unsubscribed",
        fields := [("room", room), ("timestamp", now)] }

/-- Outcome of an awaited database read inside a try block: the
promise may reject (thrown, landing in the catch block), resolve with
an error or missing row (failed), or resolve with data (ok). -/
inductive DbResult where
  | thrown
  | failed
  | ok (data : String)
deriving DecidableEq, Repr

/-- handleParkingAvailabilityRequest (lines 176-203): failed models the
supabase error branch (line 190), thrown the catch block (line 201);
the reply carries the lots and a timestamp, each error event only a
message. -/
def handleParkingAvailabilityRequest (st : ServerState) (sock : Socket)
    (result : DbResult) (now : String) : ServerState :=
  match result with
  | DbResult.thrown =>
      emitToSocket st sock.sid
        { name := "error", fields := [("message", "Internal server error")] }
  | DbResult.failed =>
      emitToSocket st sock.sid
        { name := "error",
          fields := [("message", "Failed to fetch parking availability")] }
  | DbResult.ok lots =>
      emitToSocket st sock.sid
        { name := "parking_availability",
          fields := [("parking_lots", lots), ("timestamp", now)] }

/-- handleBookingStatusRequest (lines 206-236): failed models the
booking-not-found branch (line 223, covering error as well as a missing
row), thrown the catch block (line 234). -/
def handleBookingStatusRequest (st : ServerState) (sock : Socket)
    (result : DbResult) (now : String) : ServerState :=
  match result with
  | DbResult.thrown =>
      emitToSocket st sock.sid
        { name := "error", fields := [("message", "Internal server error")] }
  | DbResult.failed =>
      emitToSocket st sock.sid
        { name := "error", fields := [("message", "Booking not found")] }
  | DbResult.ok booking =>
      emitToSocket st sock.sid
        { name := "booking_status",
          fields := [("booking", booking), ("timestamp", now)] }

/-- The get_live_stats listener (lines 94-98) composed with
handleLiveStatsRequest (lines 239-252): the listener body is guarded by
the cached role with no else branch, so a non-admin request does
nothing at all; for an admin the reply carries the stats snapshot and a
timestamp, and none models the catch block (line 250) whose error event
carries only a message. -/
def onGetLiveStats (st : ServerState) (sock : Socket) (stats : Option String)
    (now : String) : ServerState :=
  if sock.userRole = "admin" then
    match stats with
    | none =>
        emitToSocket st sock.sid
          { name := "error",
            fields := [("message", "Failed to fetch live statistics")] }
    | some s =>
        emitToSocket st sock.sid
          { name := "live_stats", fields := [("stats", s), ("timestamp", now)] }
  else st

/-- The body of the disconnect listener (lines 101-112): delete the
userId from connectedUsers, then drop the userId from every room
subscription set and delete sets that became empty.  Everything is
keyed by userId, not by socket id. -/
def disconnectCleanup (st : ServerState) (sock : Socket) : ServerState :=
  let st1 : ServerState :=
    { st with connectedUsers := mapDelete st.connectedUsers sock.userId }
  { st1 with roomSubscriptions :=
      ((st1.roomSubscriptions.map (fun p => (p.1, setDelete p.2 sock.userId))).filter
        (fun p => ¬ p.2.length = 0)) }

/-- A full disconnect: the transport removes the socket and its adapter
room memberships, and the disconnect listener runs its cleanup. -/
def handleDisconnect (st : ServerState) (sock : Socket) : ServerState :=
  disconnectCleanup
    { st with
      sockets := st.sockets.filter (fun s => ¬ s.sid = sock.sid),
      rooms := st.rooms.filter (fun p => ¬ p.1 = sock.sid) } sock

/-- broadcastParkingUpdate (lines 302-318): no-op when io is unset;
otherwise emit parking_updated to the per-lot room and to the global
parking_updates room. -/
def broadcastParkingUpdate (st : ServerState) (parkingLotId : String)
    (updateData : List (String × String)) (now : String) : ServerState :=
  if st.ioInit then
    let e : Event :=
      { name := "parking_updated",
        fields := ([("parking_lot_id", parkingLotId)] ++ updateData ++
          [("timestamp", now)]) }
    emitToRoom (emitToRoom st ("parking_lot:" ++ parkingLotId) e)
      "parking_updates" e
  else st

/-- broadcastBookingUpdate (lines 321-338): no-op when io is unset;
otherwise emit booking_updated to the user room and, with the user_id
added, to the admin room. -/
def broadcastBookingUpdate (st : ServerState) (userId bookingId : String)
    (updateData : List (String × String)) (now : String) : ServerState :=
  if st.ioInit then
    let e1 : Event :=
      { name := "booking_updated",
        fields := ([("booking_id", bookingId)] ++ updateData ++
          [("timestamp", now)]) }
    let e2 : Event :=
      { name := "booking_updated",
        fields := ([("booking_id", bookingId), ("user_id", userId)] ++
          updateData ++ [("timestamp", now)]) }
    emitToRoom (emitToRoom st ("user:" ++ userId) e1) "admin" e2
  else st

/-- broadcastPaymentUpdate (lines 341-349). -/
def broadcastPaymentUpdate (st : ServerState) (userId paymentId : String)
    (updateData : List (String × String)) (now : String) : ServerState :=
  if st.ioInit then
    emitToRoom st ("user:" ++ userId)
      { name := "payment_updated",
        fields := ([("payment_id", paymentId)] ++ updateData ++
          [("timestamp", now)]) }
  else st

/-- broadcastNotification (lines 352-359). -/
def broadcastNotification (st : ServerState) (userId : String)
    (notification : List (String × String)) (now : String) : ServerState :=
  if st.ioInit then
    emitToRoom st ("user:" ++ userId)
      { name := "notification",
        fields := (notification ++ [("timestamp", now)]) }
  else st

/-- broadcastSystemAnnouncement (lines 362-370). -/
def broadcastSystemAnnouncement (st : ServerState) (message ty : String)
    (now : String) : ServerState :=
  if st.ioInit then
    emitToAll st
      { name := "system_announcement",
        fields := [("message", message), ("type", ty), ("timestamp", now)] }
  else st

/-- One inbound operation of the service: a client event, a disconnect,
or a call of one of the exported broadcast entry points. -/
inductive Op where
  | connect (sock : Socket) (now : String)
  | subscribe (sock : Socket) (data : SubscribeData) (now : String)
  | unsubscribe (sock : Socket) (data : UnsubscribeData) (now : String)
  | getParkingAvailability (sock : Socket) (result : DbResult) (now : String)
  | getBookingStatus (sock : Socket) (result : DbResult) (now : String)
  | getLiveStats (sock : Socket) (stats : Option String) (now : String)
  | disconnect (sock : Socket)
  | parkingUpdate (lotId : String) (upd : List (String × String)) (now : String)
  | bookingUpdate (userId bookingId : String) (upd : List (String × String)) (now : String)
  | paymentUpdate (userId paymentId : String) (upd : List (String × String)) (now : String)
  | notify (userId : String) (notif : List (String × String)) (now : String)
  | announce (message ty : String) (now : String)
deriving DecidableEq, Repr

/-- The step function dispatching one operation to its handler. -/
def step (st : ServerState) : Op → ServerState
  | Op.connect sock now => handleConnection st sock now
  | Op.subscribe sock data now => handleRoomSubscription st sock data now
  | Op.unsubscribe sock data now => handleRoomUnsubscription st sock data now
  | Op.getParkingAvailability sock result now =>
      handleParkingAvailabilityRequest st sock result now
  | Op.getBookingStatus sock result now =>
      handleBookingStatusRequest st sock result now
  | Op.getLiveStats sock stats now => onGetLiveStats st sock stats now
  | Op.disconnect sock => handleDisconnect st sock
  | Op.parkingUpdate lotId upd now => broadcastParkingUpdate st lotId upd now
  | Op.bookingUpdate userId bookingId upd now =>
      broadcastBookingUpdate st userId bookingId upd now
  | Op.paymentUpdate userId paymentId upd now =>
      broadcastPaymentUpdate st userId paymentId upd now
  | Op.notify userId notif now => broadcastNotification st userId notif now
  | Op.announce message ty now => broadcastSystemAnnouncement st message ty now

/-- Run a list of operations in order. -/
def run (st : ServerState) (ops : List Op) : ServerState :=
  ops.foldl step st

/-- Number of occurrences of a string in a list. -/
def countOcc (x : String) (l : List String) : Nat :=
  (l.filter (fun y => y = x)).length

/-- No topic of the roomSubscriptions tracking map has an empty
subscriber set. -/
def noEmptyTopics (st : ServerState) : Prop :=
  ∀ p ∈ st.roomSubscriptions, ¬ p.2 = []

/-- The shape every event actually emitted by the service has: either
it is an error event, and then it carries only a message field and no
timestamp, or it is not an error event, and then it carries a timestamp
field. -/
def stampedOrError (e : Event) : Prop :=
  (e.name = "error" ∧ hasField e "timestamp" = false ∧
    ∃ m, e.fields = [("message", m)]) ∨
  (¬ e.name = "error" ∧ hasField e "timestamp" = true)

/-- Operations that neither admit nor destroy a connection. -/
def inSession : Op → Bool
  | Op.connect _ _ => false
  | Op.disconnect _ => false
  | _ => true

/-- First connection of subject U, socket id a, role user. -/
def sockA : Socket :=
  { sid := "a", userId := "U", userRole := "user",
    userEmail := "a@x", userName := "A" }

/-- Second connection of the same subject U, socket id b, role user. -/
def sockB : Socket :=
  { sid := "b", userId := "U", userRole := "user",
    userEmail := "b@x", userName := "B" }

/-- A non-admin connection of subject N, socket id n. -/
def sockN : Socket :=
  { sid := "n", userId := "N", userRole := "user",
    userEmail := "n@x", userName := "N" }

/-- An admin connection of subject M, socket id m. -/
def sockM : Socket :=
  { sid := "m", userId := "M", userRole := "admin",
    userEmail := "m@x", userName := "M" }

/-! Generic lemmas about the JS Map and Set models. -/

theorem mapGet_mapSet_self {α : Type} (m : List (String × α)) (k : String) (v : α) :
    mapGet (mapSet m k v) k = some v := by
  induction m with
  | nil => simp [mapSet, mapHas, mapGet]
  | cons p t ih =>
    by_cases hk : p.1 = k
    · simp [mapSet, mapHas, hk, mapGet, List.find?_cons]
    · by_cases ht : mapHas t k = true
      · have hh : mapHas (p :: t) k = true := by
          simp [mapHas] at ht ⊢
          exact Or.inr ht
        have ih2 := ih
        simp [mapSet, hh, ht, mapGet, List.find?_cons, hk] at ih2 ⊢
        exact ih2
      · have hh : mapHas (p :: t) k = false := by
          simp [mapHas] at ht ⊢
          refine ⟨hk, fun a b hab hak => ?_⟩
          subst hak
          exact ht b hab
        have ih2 := ih
        simp [mapSet, hh, ht, mapGet, List.find?_cons, hk] at ih2 ⊢
        exact ih2

theorem mapHas_iff_exists {α : Type} (m : List (String × α)) (k : String) :
    mapHas m k = true ↔ ∃ p ∈ m, p.1 = k := by
  constructor
  · intro h
    rcases List.any_eq_true.mp h with ⟨p, hp, hpk⟩
    exact ⟨p, hp, of_decide_eq_true hpk⟩
  · intro h
    rcases h with ⟨p, hp, hpk⟩
    exact List.any_eq_true.mpr ⟨p, hp, decide_eq_true hpk⟩

theorem mapGet_eq_none_of_not_has {α : Type} (m : List (String × α)) (k : String)
    (h : mapHas m k = false) : mapGet m k = none := by
  have hfind : m.find? (fun p => p.1 = k) = none := by
    rw [List.find?_eq_none]
    intro p hp
    intro hc
    have : mapHas m k = true := mapHas_iff_exists m k |>.mpr ⟨p, hp, of_decide_eq_true hc⟩
    rw [h] at this
    cases this
  rw [mapGet, hfind]
  rfl

theorem mapSet_eq_self {α : Type} (m : List (String × α)) (k : String) (v : α)
    (hnd : (m.map Prod.fst).Nodup) (h : mapGet m k = some v) : mapSet m k v = m := by
  induction m with
  | nil => simp [mapGet] at h
  | cons p t ih =>
    obtain ⟨a, b⟩ := p
    rw [List.map_cons, List.nodup_cons] at hnd
    by_cases hk : a = k
    · subst hk
      have hb : b = v := by
        rw [mapGet, List.find?_cons] at h
        simp at h
        exact h
      subst hb
      have hh : mapHas ((a, b) :: t) a = true := by
        rw [mapHas_iff_exists]
        exact ⟨(a, b), List.mem_cons_self _ _, rfl⟩
      rw [mapSet, if_pos hh, List.map_cons]
      have hq : ∀ q ∈ t, (if q.1 = a then (a, b) else q) = q := by
        intro q hqt
        have hqa : ¬ q.1 = a := by
          intro he
          have hnd1 : a ∉ List.map Prod.fst t := hnd.1
          apply hnd1
          rw [← he]
          exact List.mem_map_of_mem Prod.fst hqt
        rw [if_neg hqa]
      have hhead : (if ((a, b) : String × α).1 = a then (a, b) else (a, b)) = (a, b) := by
        simp
      rw [hhead, List.map_congr_left hq]
      simp
    · have hfind : mapGet t k = some v := by
        rw [mapGet, List.find?_cons_of_neg] at h
        · exact h
        · simp [hk]
      by_cases ht : mapHas t k = true
      · have hh : mapHas ((a, b) :: t) k = true := by
          rw [mapHas_iff_exists] at ht ⊢
          rcases ht with ⟨q, hq, hqk⟩
          exact ⟨q, List.mem_cons_of_mem _ hq, hqk⟩
        have ihs := ih hnd.2 hfind
        rw [mapSet, if_pos ht] at ihs
        rw [mapSet, if_pos hh, List.map_cons]
        have hhead : (if ((a, b) : String × α).1 = k then (k, v) else (a, b)) = (a, b) := by
          simp [hk]
        rw [hhead, ihs]
      · exfalso
        have := mapGet_eq_none_of_not_has t k (Bool.eq_false_iff.mpr ht)
        rw [this] at hfind
        cases hfind

theorem mapGet_mapDelete_ne {α : Type} (m : List (String × α)) (k u : String)
    (h : ¬ u = k) : mapGet (mapDelete m k) u = mapGet m u := by
  induction m with
  | nil => rfl
  | cons p t ih =>
    by_cases hk : p.1 = k
    · have hpu : ¬ p.1 = u := by
        rw [hk]
        exact fun hh => h hh.symm
      rw [mapDelete, List.filter_cons]
      have hcond : (decide ¬ p.1 = k) = false := by simp [hk]
      rw [hcond]
      simp only [Bool.false_eq_true, if_false]
      have hr : mapGet (p :: t) u = mapGet t u := by
        rw [mapGet, List.find?_cons_of_neg _ (by simp [hpu])]
        rfl
      rw [hr]
      exact ih
    · rw [mapDelete, List.filter_cons]
      have hcond : (decide ¬ p.1 = k) = true := by simp [hk]
      rw [hcond]
      simp only [if_true]
      by_cases hpu : p.1 = u
      · have hl : List.find? (fun q => decide (q.1 = u))
            (p :: List.filter (fun q => decide ¬ q.1 = k) t) = some p :=
          List.find?_cons_of_pos _ (by simp [hpu])
        have hr : List.find? (fun q => decide (q.1 = u)) (p :: t) = some p :=
          List.find?_cons_of_pos _ (by simp [hpu])
        rw [mapGet, mapGet, hl, hr]
      · have hl : List.find? (fun q => decide (q.1 = u))
            (p :: List.filter (fun q => decide ¬ q.1 = k) t) =
            List.find? (fun q => decide (q.1 = u))
              (List.filter (fun q => decide ¬ q.1 = k) t) :=
          List.find?_cons_of_neg _ (by simp [hpu])
        have hr : List.find? (fun q => decide (q.1 = u)) (p :: t) =
            List.find? (fun q => decide (q.1 = u)) t :=
          List.find?_cons_of_neg _ (by simp [hpu])
        rw [mapGet, mapGet, hl, hr]
        exact ih

theorem mem_of_mem_mapSet {α : Type} (m : List (String × α)) (k : String) (v : α)
    (p : String × α) (h : p ∈ mapSet m k v) : p ∈ m ∨ p = (k, v) := by
  unfold mapSet at h
  by_cases hh : mapHas m k = true
  · rw [if_pos hh] at h
    rcases List.mem_map.mp h with ⟨q, hq, hqe⟩
    by_cases hqk : q.1 = k
    · rw [if_pos hqk] at hqe
      exact Or.inr hqe.symm
    · rw [if_neg hqk] at hqe
      subst hqe
      exact Or.inl hq
  · rw [if_neg hh] at h
    rcases List.mem_append.mp h with h1 | h1
    · exact Or.inl h1
    · rcases List.mem_singleton.mp h1 with h2
      exact Or.inr h2

theorem mapHas_of_mapHas_mapSet {α : Type} (m : List (String × α)) (k r : String) (v : α)
    (h : mapHas (mapSet m k v) r = true) : mapHas m r = true ∨ r = k := by
  rcases (mapHas_iff_exists _ r).mp h with ⟨p, hp, hpr⟩
  rcases mem_of_mem_mapSet m k v p hp with hm | he
  · exact Or.inl ((mapHas_iff_exists m r).mpr ⟨p, hm, hpr⟩)
  · subst he
    exact Or.inr hpr.symm

theorem mapHas_of_mapHas_mapDelete {α : Type} (m : List (String × α)) (k r : String)
    (h : mapHas (mapDelete m k) r = true) : mapHas m r = true := by
  rcases (mapHas_iff_exists _ r).mp h with ⟨p, hp, hpr⟩
  exact (mapHas_iff_exists m r).mpr ⟨p, (List.mem_filter.mp hp).1, hpr⟩

theorem setAdd_ne_nil (s : List String) (x : String) : ¬ setAdd s x = [] := by
  unfold setAdd
  by_cases h : x ∈ s
  · rw [if_pos h]
    intro he
    rw [he] at h
    cases h
  · rw [if_neg h]
    simp

theorem mem_setDelete (s : List String) (x u : String) :
    u ∈ setDelete s x ↔ u ∈ s ∧ ¬ u = x := by
  simp [setDelete]

theorem setAdd_of_mem (s : List String) (x : String) (h : x ∈ s) : setAdd s x = s := by
  simp [setAdd, h]

theorem mem_setAdd_self (s : List String) (x : String) : x ∈ setAdd s x := by
  unfold setAdd
  by_cases h : x ∈ s
  · rw [if_pos h]
    exact h
  · rw [if_neg h]
    simp

theorem countOcc_eq_zero (s : List String) (x : String) :
    countOcc x s = 0 ↔ ¬ x ∈ s := by
  rw [countOcc, List.length_eq_zero, List.filter_eq_nil_iff]
  constructor
  · intro h hx
    exact h x hx (by simp)
  · intro h a ha hax
    have : a = x := by simpa using hax
    subst this
    exact h ha

theorem countOcc_setAdd (s : List String) (x : String) (h : ¬ x ∈ s) :
    countOcc x (setAdd s x) = 1 := by
  have h0 : countOcc x s = 0 := (countOcc_eq_zero s x).mpr h
  rw [setAdd, if_neg h, countOcc, List.filter_append, List.length_append]
  rw [countOcc] at h0
  rw [h0]
  simp

/-! Frame lemmas about the primitive socket operations. -/

theorem socketJoin_sockets (st : ServerState) (sid room : String) :
    (socketJoin st sid room).sockets = st.sockets := by
  unfold socketJoin
  split
  · rfl
  · rfl

theorem socketJoin_outbox (st : ServerState) (sid room : String) :
    (socketJoin st sid room).outbox = st.outbox := by
  unfold socketJoin
  split
  · rfl
  · rfl

theorem socketJoin_connectedUsers (st : ServerState) (sid room : String) :
    (socketJoin st sid room).connectedUsers = st.connectedUsers := by
  unfold socketJoin
  split
  · rfl
  · rfl

theorem socketJoin_roomSubscriptions (st : ServerState) (sid room : String) :
    (socketJoin st sid room).roomSubscriptions = st.roomSubscriptions := by
  unfold socketJoin
  split
  · rfl
  · rfl

theorem mem_rooms_socketJoin_self (st : ServerState) (sid room : String) :
    (sid, room) ∈ (socketJoin st sid room).rooms := by
  unfold socketJoin
  split
  · assumption
  · exact List.mem_append_right _ (List.mem_singleton.mpr rfl)

theorem mem_rooms_socketJoin_of_mem (st : ServerState) (sid room : String)
    (p : String × String) (h : p ∈ st.rooms) : p ∈ (socketJoin st sid room).rooms := by
  unfold socketJoin
  split
  · exact h
  · exact List.mem_append_left _ h

theorem queueOf_emitToSocket_self (st : ServerState) (sid : String) (e : Event) :
    queueOf (emitToSocket st sid e) sid = queueOf st sid ++ [e] := by
  unfold queueOf emitToSocket
  rw [List.filter_append, List.map_append]
  congr 1
  simp

theorem queueOf_emitToSocket_ne (st : ServerState) (sid tid : String) (e : Event)
    (h : ¬ sid = tid) : queueOf (emitToSocket st tid e) sid = queueOf st sid := by
  unfold queueOf emitToSocket
  rw [List.filter_append, List.map_append]
  have : List.filter (fun p => decide (p.1 = sid)) [(tid, e)] = [] := by
    simp
    exact fun hc => h hc.symm
  rw [this]
  simp

/-- Core list lemma behind the disconnect cleanup loop: dropping one
userId from every subscriber set and discarding sets that became empty
does not change membership of any other userId, provided the map keys
are duplicate-free. -/
theorem cleanup_mem (m : List (String × List String)) (uid u room : String)
    (hnd : (m.map Prod.fst).Nodup) (hne : ¬ u = uid) :
    (u ∈ (mapGet ((m.map (fun p => (p.1, setDelete p.2 uid))).filter
        (fun p => ¬ p.2.length = 0)) room).getD []) ↔
    u ∈ (mapGet m room).getD [] := by
  induction m with
  | nil => simp [mapGet]
  | cons p t ih =>
    obtain ⟨a, s⟩ := p
    rw [List.map_cons, List.nodup_cons] at hnd
    rw [List.map_cons, List.filter_cons]
    by_cases hempty : (setDelete s uid).length = 0
    · have hcond : (decide ¬ ((a, setDelete s uid) : String × List String).2.length = 0) = false := by
        simp [hempty]
      rw [hcond]
      simp only [Bool.false_eq_true, if_false]
      by_cases har : a = room
      · subst har
        have hnone : mapGet ((t.map (fun p => (p.1, setDelete p.2 uid))).filter
            (fun p => ¬ p.2.length = 0)) a = none := by
          apply mapGet_eq_none_of_not_has
          rw [Bool.eq_false_iff]
          intro hc
          rcases (mapHas_iff_exists _ a).mp hc with ⟨q, hq, hqa⟩
          have hq2 := (List.mem_filter.mp hq).1
          rcases List.mem_map.mp hq2 with ⟨w, hw, hwe⟩
          have hnd1 : a ∉ List.map Prod.fst t := hnd.1
          apply hnd1
          have hw1 : w.1 = a := by
            rw [← hqa, ← hwe]
          rw [← hw1]
          exact List.mem_map_of_mem Prod.fst hw
        rw [hnone]
        have hget : mapGet ((a, s) :: t) a = some s := by
          rw [mapGet, List.find?_cons_of_pos _ (by simp)]
          rfl
        rw [hget]
        simp only [Option.getD_some, Option.getD_none]
        constructor
        · intro hc
          cases hc
        · intro hus
          exfalso
          have : u ∈ setDelete s uid := (mem_setDelete s uid u).mpr ⟨hus, hne⟩
          rw [List.length_eq_zero.mp hempty] at this
          cases this
      · have hget : mapGet ((a, s) :: t) room = mapGet t room := by
          rw [mapGet, List.find?_cons_of_neg _ (by simp [har])]
          rfl
        rw [hget]
        exact ih hnd.2
    · have hcond : (decide ¬ ((a, setDelete s uid) : String × List String).2.length = 0) = true := by
        simp [hempty]
      rw [hcond]
      simp only [if_true]
      by_cases har : a = room
      · subst har
        have hl : mapGet ((a, setDelete s uid) ::
            (t.map (fun p => (p.1, setDelete p.2 uid))).filter
              (fun p => ¬ p.2.length = 0)) a = some (setDelete s uid) := by
          rw [mapGet, List.find?_cons_of_pos _ (by simp)]
          rfl
        have hr : mapGet ((a, s) :: t) a = some s := by
          rw [mapGet, List.find?_cons_of_pos _ (by simp)]
          rfl
        rw [hl, hr]
        simp only [Option.getD_some]
        rw [mem_setDelete]
        constructor
        · intro hc
          exact hc.1
        · intro hus
          exact ⟨hus, hne⟩
      · have hl : mapGet ((a, setDelete s uid) ::
            (t.map (fun p => (p.1, setDelete p.2 uid))).filter
              (fun p => ¬ p.2.length = 0)) room =
            mapGet ((t.map (fun p => (p.1, setDelete p.2 uid))).filter
              (fun p => ¬ p.2.length = 0)) room := by
          rw [mapGet, List.find?_cons_of_neg _ (by simp [har])]
          rfl
        have hr : mapGet ((a, s) :: t) room = mapGet t room := by
          rw [mapGet, List.find?_cons_of_neg _ (by simp [har])]
          rfl
        rw [hl, hr]
        exact ih hnd.2

/-! Claim C9. -/

/-- Claim C9: for every connection whose cached role is not admin, an
inbound get_live_stats message is silently dropped: no reply event, no
error event, and no state change at all (the listener body at lines
94-98 is guarded by the cached role and has no else branch). -/
theorem C9_live_stats_silent_drop (st : ServerState) (sock : Socket)
    (stats : Option String) (now : String) (hrole : ¬ sock.userRole = "admin") :
    onGetLiveStats st sock stats now = st := by
  unfold onGetLiveStats
  rw [if_neg hrole]

/-- Witness for C9 at a concrete non-admin connection. -/
theorem C9_witness :
    onGetLiveStats (initializeWebSocket initialState) sockN (some "s") "t" =
      initializeWebSocket initialState :=
  C9_live_stats_silent_drop (initializeWebSocket initialState) sockN (some "s") "t"
    (by decide)

/-! Claim C10. -/

/-- Claim C10: when initializeWebSocket has never been called (the io
handle is unset), every broadcast entry point returns immediately
without emitting any event and without changing any state (each starts
with the guard returning when io is unset). -/
theorem C10_broadcasts_noop_without_io (st : ServerState)
    (hio : st.ioInit = false) (lotId userId bookingId paymentId message ty now : String)
    (upd notif : List (String × String)) :
    broadcastParkingUpdate st lotId upd now = st ∧
    broadcastBookingUpdate st userId bookingId upd now = st ∧
    broadcastPaymentUpdate st userId paymentId upd now = st ∧
    broadcastNotification st userId notif now = st ∧
    broadcastSystemAnnouncement st message ty now = st := by
  unfold broadcastParkingUpdate broadcastBookingUpdate broadcastPaymentUpdate
    broadcastNotification broadcastSystemAnnouncement
  rw [hio]
  simp

/-- Witness for C10 at the fresh state, where io is unset. -/
theorem C10_witness :
    broadcastParkingUpdate initialState "1" [] "t" = initialState ∧
    broadcastBookingUpdate initialState "U" "B" [] "t" = initialState ∧
    broadcastPaymentUpdate initialState "U" "P" [] "t" = initialState ∧
    broadcastNotification initialState "U" [] "t" = initialState ∧
    broadcastSystemAnnouncement initialState "hello" "info" "t" = initialState :=
  C10_broadcasts_noop_without_io initialState rfl "1" "U" "B" "P" "hello" "info" "t" [] []

theorem emitToSocket_rooms (st : ServerState) (sid : String) (e : Event) :
    (emitToSocket st sid e).rooms = st.rooms := rfl

theorem emitToSocket_sockets (st : ServerState) (sid : String) (e : Event) :
    (emitToSocket st sid e).sockets = st.sockets := rfl

theorem handleConnection_sockets (st : ServerState) (sock : Socket) (now : String) :
    (handleConnection st sock now).sockets = st.sockets ++ [sock] := by
  unfold handleConnection
  dsimp only
  by_cases h : sock.userRole = "admin"
  · rw [if_pos h, emitToSocket_sockets, socketJoin_sockets, socketJoin_sockets]
  · rw [if_neg h, emitToSocket_sockets, socketJoin_sockets]

theorem handleConnection_mem_user_room (st : ServerState) (sock : Socket) (now : String) :
    (sock.sid, "user:" ++ sock.userId) ∈ (handleConnection st sock now).rooms := by
  unfold handleConnection
  dsimp only
  by_cases h : sock.userRole = "admin"
  · rw [if_pos h, emitToSocket_rooms]
    exact mem_rooms_socketJoin_of_mem _ _ _ _ (mem_rooms_socketJoin_self _ _ _)
  · rw [if_neg h, emitToSocket_rooms]
    exact mem_rooms_socketJoin_self _ _ _

theorem handleConnection_mem_admin_room (st : ServerState) (sock : Socket) (now : String)
    (h : sock.userRole = "admin") :
    (sock.sid, "admin") ∈ (handleConnection st sock now).rooms := by
  unfold handleConnection
  dsimp only
  rw [if_pos h, emitToSocket_rooms]
  exact mem_rooms_socketJoin_self _ _ _

theorem mem_socketsInRoom (st : ServerState) (sid room : String) :
    sid ∈ socketsInRoom st room ↔
      (sid ∈ st.sockets.map Socket.sid ∧ (sid, room) ∈ st.rooms) := by
  simp [socketsInRoom, List.mem_filter]

/-! Claim C3. -/

/-- Claim C3: immediately after successful admission, the subscription
index consulted by the delivery path reports the connection under its
own subject topic (the room user:userId), and, when its cached role is
admin, under the admin topic as well (socket.join calls at lines 67 and
70-72). -/
theorem C3_auto_subscription (st : ServerState) (sock : Socket) (now : String) :
    sock.sid ∈ socketsInRoom (handleConnection st sock now) ("user:" ++ sock.userId) ∧
    (sock.userRole = "admin" →
      sock.sid ∈ socketsInRoom (handleConnection st sock now) "admin") := by
  constructor
  · rw [mem_socketsInRoom]
    constructor
    · rw [handleConnection_sockets]
      simp
    · exact handleConnection_mem_user_room st sock now
  · intro h
    rw [mem_socketsInRoom]
    constructor
    · rw [handleConnection_sockets]
      simp
    · exact handleConnection_mem_admin_room st sock now h

/-- Witness for C3 at a concrete admin connection in the fresh state:
both the subject room and the admin room report it. -/
theorem C3_witness :
    sockM.sid ∈ socketsInRoom
      (handleConnection (initializeWebSocket initialState) sockM "t")
      ("user:" ++ sockM.userId) ∧
    sockM.sid ∈ socketsInRoom
      (handleConnection (initializeWebSocket initialState) sockM "t") "admin" := by
  have h := C3_auto_subscription (initializeWebSocket initialState) sockM "t"
  exact ⟨h.1, h.2 (by decide)⟩

/-! Claim C1. -/

/-- Claim C1 as stated fails on the code: the connection registry
(connectedUsers, line 59) is keyed by subject-id, so after subject U
opens two live connections the registry holds a single entry, not a
separate entry per connection, and that entry references only the most
recent socket. -/
theorem C1_counterexample :
    (handleConnection (handleConnection (initializeWebSocket initialState)
        sockA "t1") sockB "t2").sockets.length = 2 ∧
    (handleConnection (handleConnection (initializeWebSocket initialState)
        sockA "t1") sockB "t2").connectedUsers.length = 1 ∧
    mapGet (handleConnection (handleConnection (initializeWebSocket initialState)
        sockA "t1") sockB "t2").connectedUsers "U" =
      some { socketId := "b", connectedAt := "t2", role := "user" } := by
  decide

/-- Claim C1 amended: the registry keeps at most one entry per
subject-id (a later connection overwrites the earlier entry), but
broadcastNotification(U, ...) still enqueues the event on the outbound
queues of both live connections of U, because delivery resolves the
room user:U which each socket joined at connect time. -/
theorem C1_amended_multi_device_fanout (notif : List (String × String)) (now : String) :
    (handleConnection (handleConnection (initializeWebSocket initialState)
        sockA "t1") sockB "t2").connectedUsers.length = 1 ∧
    queueOf (broadcastNotification
        (handleConnection (handleConnection (initializeWebSocket initialState)
          sockA "t1") sockB "t2") "U" notif now) "a" =
      queueOf (handleConnection (handleConnection (initializeWebSocket initialState)
          sockA "t1") sockB "t2") "a" ++
        [{ name := "notification", fields := (notif ++ [("timestamp", now)]) }] ∧
    queueOf (broadcastNotification
        (handleConnection (handleConnection (initializeWebSocket initialState)
          sockA "t1") sockB "t2") "U" notif now) "b" =
      queueOf (handleConnection (handleConnection (initializeWebSocket initialState)
          sockA "t1") sockB "t2") "b" ++
        [{ name := "notification", fields := (notif ++ [("timestamp", now)]) }] := by
  refine ⟨by decide, ?_, ?_⟩
  · rfl
  · rfl

/-! Claim C2. -/

/-- Claim C2 as stated fails on the code: the subscribe gate at line
135 checks the client-supplied type field, not the room name, so a
non-admin connection subscribing with room admin and type parking is
accepted: it receives a subscribed ack, is added to the admin room of
the adapter and to the roomSubscriptions tracking set for admin. -/
theorem C2_counterexample :
    sockN.userRole = "user" ∧
    queueOf (handleRoomSubscription
        (handleConnection (initializeWebSocket initialState) sockN "t") sockN
        { room := some "admin", type := some "parking" } "t2") "n" =
      queueOf (handleConnection (initializeWebSocket initialState) sockN "t") "n" ++
        [{ name := "subscribed",
           fields := [("room", "admin"), ("type", "parking"), ("timestamp", "t2")] }] ∧
    subscribersOf (handleConnection (initializeWebSocket initialState) sockN "t")
        "admin" = [] ∧
    subscribersOf (handleRoomSubscription
        (handleConnection (initializeWebSocket initialState) sockN "t") sockN
        { room := some "admin", type := some "parking" } "t2") "admin" = ["N"] ∧
    socketsInRoom (handleRoomSubscription
        (handleConnection (initializeWebSocket initialState) sockN "t") sockN
        { room := some "admin", type := some "parking" } "t2") "admin" = ["n"] := by
  decide

/-- Claim C2 amended: the Forbidden rejection triggers exactly when the
request carries the literal type admin and the cached role is not
admin; in that case the client receives the error event and neither the
roomSubscriptions tracking map nor the adapter room membership
changes.  (A request naming the admin room under any other type value
is not rejected, per the counterexample.) -/
theorem C2_amended_gate_on_type_field (st : ServerState) (sock : Socket)
    (data : SubscribeData) (now : String)
    (hrole : ¬ sock.userRole = "admin") (hty : data.type = some "admin")
    (hroom : falsy data.room = false) :
    handleRoomSubscription st sock data now =
      emitToSocket st sock.sid
        { name := "error", fields := [("message", "Admin privileges required")] } ∧
    (handleRoomSubscription st sock data now).roomSubscriptions =
      st.roomSubscriptions ∧
    (handleRoomSubscription st sock data now).rooms = st.rooms := by
  have hkey : handleRoomSubscription st sock data now =
      emitToSocket st sock.sid
        { name := "error", fields := [("message", "Admin privileges required")] } := by
    unfold handleRoomSubscription
    have h1 : (falsy data.room || falsy data.type) = false := by
      rw [hroom, hty]
      decide
    rw [h1]
    simp only [Bool.false_eq_true, if_false]
    rw [if_pos ⟨hty, hrole⟩]
  exact ⟨hkey, by rw [hkey]; rfl, by rw [hkey]; rfl⟩

/-- Witness for the amended C2 at a concrete non-admin connection
requesting type admin. -/
theorem C2_witness :
    handleRoomSubscription (initializeWebSocket initialState) sockN
        { room := some "r", type := some "admin" } "t" =
      emitToSocket (initializeWebSocket initialState) sockN.sid
        { name := "error", fields := [("message", "Admin privileges required")] } ∧
    (handleRoomSubscription (initializeWebSocket initialState) sockN
        { room := some "r", type := some "admin" } "t").roomSubscriptions =
      (initializeWebSocket initialState).roomSubscriptions ∧
    (handleRoomSubscription (initializeWebSocket initialState) sockN
        { room := some "r", type := some "admin" } "t").rooms =
      (initializeWebSocket initialState).rooms :=
  C2_amended_gate_on_type_field (initializeWebSocket initialState) sockN
    { room := some "r", type := some "admin" } "t" (by decide) rfl (by decide)

/-! Claim C8. -/

/-- Claim C8 as stated fails on the code: a connection admitted with
cached role user can gain admin-topic membership without disconnecting,
by sending subscribe with room admin and a type other than admin (the
gate at line 135 only checks the type field).  Here the connection is
in the adapter admin room after one such request. -/
theorem C8_counterexample :
    sockN.userRole = "user" ∧
    ¬ "n" ∈ socketsInRoom
        (handleConnection (initializeWebSocket initialState) sockN "t") "admin" ∧
    "n" ∈ socketsInRoom
        (handleRoomSubscription
          (handleConnection (initializeWebSocket initialState) sockN "t") sockN
          { room := some "admin", type := some "parking" } "t2") "admin" := by
  decide

theorem handleRoomSubscription_sockets (st : ServerState) (sock : Socket)
    (data : SubscribeData) (now : String) :
    (handleRoomSubscription st sock data now).sockets = st.sockets := by
  unfold handleRoomSubscription
  split
  · rfl
  · split
    · rfl
    · dsimp only
      rw [emitToSocket_sockets]
      exact socketJoin_sockets st sock.sid _

theorem handleRoomUnsubscription_sockets (st : ServerState) (sock : Socket)
    (data : UnsubscribeData) (now : String) :
    (handleRoomUnsubscription st sock data now).sockets = st.sockets := by
  unfold handleRoomUnsubscription
  split
  · rfl
  · rfl

theorem handleParkingAvailabilityRequest_sockets (st : ServerState) (sock : Socket)
    (result : DbResult) (now : String) :
    (handleParkingAvailabilityRequest st sock result now).sockets = st.sockets := by
  unfold handleParkingAvailabilityRequest
  cases result with
  | thrown => rfl
  | failed => rfl
  | ok lots => rfl

theorem handleBookingStatusRequest_sockets (st : ServerState) (sock : Socket)
    (result : DbResult) (now : String) :
    (handleBookingStatusRequest st sock result now).sockets = st.sockets := by
  unfold handleBookingStatusRequest
  cases result with
  | thrown => rfl
  | failed => rfl
  | ok booking => rfl

theorem onGetLiveStats_sockets (st : ServerState) (sock : Socket)
    (stats : Option String) (now : String) :
    (onGetLiveStats st sock stats now).sockets = st.sockets := by
  unfold onGetLiveStats
  split
  · cases stats with
    | none => rfl
    | some s => rfl
  · rfl

theorem broadcastParkingUpdate_sockets (st : ServerState) (lotId : String)
    (upd : List (String × String)) (now : String) :
    (broadcastParkingUpdate st lotId upd now).sockets = st.sockets := by
  unfold broadcastParkingUpdate
  split
  · rfl
  · rfl

theorem broadcastBookingUpdate_sockets (st : ServerState) (userId bookingId : String)
    (upd : List (String × String)) (now : String) :
    (broadcastBookingUpdate st userId bookingId upd now).sockets = st.sockets := by
  unfold broadcastBookingUpdate
  split
  · rfl
  · rfl

theorem broadcastPaymentUpdate_sockets (st : ServerState) (userId paymentId : String)
    (upd : List (String × String)) (now : String) :
    (broadcastPaymentUpdate st userId paymentId upd now).sockets = st.sockets := by
  unfold broadcastPaymentUpdate
  split
  · rfl
  · rfl

theorem broadcastNotification_sockets (st : ServerState) (userId : String)
    (notif : List (String × String)) (now : String) :
    (broadcastNotification st userId notif now).sockets = st.sockets := by
  unfold broadcastNotification
  split
  · rfl
  · rfl

theorem broadcastSystemAnnouncement_sockets (st : ServerState) (message ty now : String) :
    (broadcastSystemAnnouncement st message ty now).sockets = st.sockets := by
  unfold broadcastSystemAnnouncement
  split
  · rfl
  · rfl

/-- Any operation other than a connect or a disconnect leaves the set
of live sockets, and so every cached per-socket role, unchanged. -/
theorem step_sockets_inSession (st : ServerState) (op : Op)
    (h : inSession op = true) : (step st op).sockets = st.sockets := by
  cases op with
  | connect sock now => simp [inSession] at h
  | disconnect sock => simp [inSession] at h
  | subscribe sock data now => exact handleRoomSubscription_sockets st sock data now
  | unsubscribe sock data now => exact handleRoomUnsubscription_sockets st sock data now
  | getParkingAvailability sock result now =>
      exact handleParkingAvailabilityRequest_sockets st sock result now
  | getBookingStatus sock result now =>
      exact handleBookingStatusRequest_sockets st sock result now
  | getLiveStats sock stats now => exact onGetLiveStats_sockets st sock stats now
  | parkingUpdate lotId upd now => exact broadcastParkingUpdate_sockets st lotId upd now
  | bookingUpdate userId bookingId upd now =>
      exact broadcastBookingUpdate_sockets st userId bookingId upd now
  | paymentUpdate userId paymentId upd now =>
      exact broadcastPaymentUpdate_sockets st userId paymentId upd now
  | notify userId notif now => exact broadcastNotification_sockets st userId notif now
  | announce message ty now => exact broadcastSystemAnnouncement_sockets st message ty now

/-- Claim C8 amended: the cached role is fixed at connect time — no
in-session operation (anything except connect and disconnect) changes
the set of live sockets and their cached fields, the external store is
never consulted again, and a get_live_stats request from a connection
whose cached role is not admin is still silently dropped after any such
sequence.  (Admin-topic membership, however, can change without a
reconnect — see the counterexample.) -/
theorem C8_amended_cached_role_fixed (st : ServerState) (ops : List Op)
    (h : ∀ op ∈ ops, inSession op = true) (sock : Socket) (stats : Option String)
    (now : String) (hrole : ¬ sock.userRole = "admin") :
    (run st ops).sockets = st.sockets ∧
    onGetLiveStats (run st ops) sock stats now = run st ops := by
  have hs : ∀ (l : List Op), (∀ op ∈ l, inSession op = true) →
      ∀ s : ServerState, (run s l).sockets = s.sockets := by
    intro l
    induction l with
    | nil =>
        intro _ s
        rfl
    | cons op t ih =>
        intro hl s
        rw [run, List.foldl_cons]
        have h1 := step_sockets_inSession s op (hl op (List.mem_cons_self _ _))
        have h2 := ih (fun o ho => hl o (List.mem_cons_of_mem _ ho)) (step s op)
        rw [run] at h2
        rw [h2, h1]
  refine ⟨hs ops h st, ?_⟩
  unfold onGetLiveStats
  rw [if_neg hrole]

/-- Witness for the amended C8: one in-session subscribe, a non-admin
requester. -/
theorem C8_witness :
    (run (initializeWebSocket initialState)
        [Op.subscribe sockN { room := some "r", type := some "parking" } "t"]).sockets =
      (initializeWebSocket initialState).sockets ∧
    onGetLiveStats
        (run (initializeWebSocket initialState)
          [Op.subscribe sockN { room := some "r", type := some "parking" } "t"])
        sockN (some "s") "t2" =
      run (initializeWebSocket initialState)
        [Op.subscribe sockN { room := some "r", type := some "parking" } "t"] :=
  C8_amended_cached_role_fixed (initializeWebSocket initialState)
    [Op.subscribe sockN { room := some "r", type := some "parking" } "t"]
    (by decide) sockN (some "s") "t2" (by decide)

/-! Claim C4. -/

/-- Claim C4 as stated fails on the code: the error event emitted for a
malformed subscribe request (line 130) carries only a message field and
no timestamp field (every error emit in the service is of this shape). -/
theorem C4_counterexample :
    queueOf (handleRoomSubscription (initializeWebSocket initialState) sockN
        { room := none, type := none } "t") "n" =
      [{ name := "error",
         fields := [("message", "Room and type are required for subscription")] }] ∧
    hasField
      { name := "error",
        fields := [("message", "Room and type are required for subscription")] }
      "timestamp" = false := by
  decide

theorem mem_outbox_emitToSocket (st : ServerState) (sid : String) (e : Event)
    (p : String × Event) (h : p ∈ (emitToSocket st sid e).outbox) :
    p ∈ st.outbox ∨ p.2 = e := by
  rcases List.mem_append.mp h with h1 | h1
  · exact Or.inl h1
  · right
    rw [List.mem_singleton.mp h1]

theorem mem_outbox_emitToRoom (st : ServerState) (room : String) (e : Event)
    (p : String × Event) (h : p ∈ (emitToRoom st room e).outbox) :
    p ∈ st.outbox ∨ p.2 = e := by
  rcases List.mem_append.mp h with h1 | h1
  · exact Or.inl h1
  · right
    rcases List.mem_map.mp h1 with ⟨sid, _, he⟩
    rw [← he]

theorem mem_outbox_emitToAll (st : ServerState) (e : Event)
    (p : String × Event) (h : p ∈ (emitToAll st e).outbox) :
    p ∈ st.outbox ∨ p.2 = e := by
  rcases List.mem_append.mp h with h1 | h1
  · exact Or.inl h1
  · right
    rcases List.mem_map.mp h1 with ⟨sock, _, he⟩
    rw [← he]

theorem event_mk_name (n : String) (l : List (String × String)) :
    (Event.mk n l).name = n := rfl

theorem stamped_handleConnection (st : ServerState) (sock : Socket) (now : String)
    (p : String × Event) (h : p ∈ (handleConnection st sock now).outbox) :
    p ∈ st.outbox ∨ stampedOrError p.2 := by
  unfold handleConnection at h
  dsimp only at h
  by_cases hr : sock.userRole = "admin"
  · rw [if_pos hr] at h
    rcases mem_outbox_emitToSocket _ _ _ _ h with h1 | h1
    · rw [socketJoin_outbox, socketJoin_outbox] at h1
      exact Or.inl h1
    · right
      rw [h1]
      right
      exact ⟨by rw [event_mk_name]; decide, rfl⟩
  · rw [if_neg hr] at h
    rcases mem_outbox_emitToSocket _ _ _ _ h with h1 | h1
    · rw [socketJoin_outbox] at h1
      exact Or.inl h1
    · right
      rw [h1]
      right
      exact ⟨by rw [event_mk_name]; decide, rfl⟩

theorem stamped_handleRoomSubscription (st : ServerState) (sock : Socket)
    (data : SubscribeData) (now : String)
    (p : String × Event) (h : p ∈ (handleRoomSubscription st sock data now).outbox) :
    p ∈ st.outbox ∨ stampedOrError p.2 := by
  unfold handleRoomSubscription at h
  split at h
  · rcases mem_outbox_emitToSocket _ _ _ _ h with h1 | h1
    · exact Or.inl h1
    · right
      rw [h1]
      left
      exact ⟨rfl, rfl, _, rfl⟩
  · split at h
    · rcases mem_outbox_emitToSocket _ _ _ _ h with h1 | h1
      · exact Or.inl h1
      · right
        rw [h1]
        left
        exact ⟨rfl, rfl, _, rfl⟩
    · dsimp only at h
      rcases mem_outbox_emitToSocket _ _ _ _ h with h1 | h1
      · rw [socketJoin_outbox] at h1
        exact Or.inl h1
      · right
        rw [h1]
        right
        exact ⟨by rw [event_mk_name]; decide, rfl⟩

theorem stamped_handleRoomUnsubscription (st : ServerState) (sock : Socket)
    (data : UnsubscribeData) (now : String)
    (p : String × Event) (h : p ∈ (handleRoomUnsubscription st sock data now).outbox) :
    p ∈ st.outbox ∨ stampedOrError p.2 := by
  unfold handleRoomUnsubscription at h
  split at h
  · rcases mem_outbox_emitToSocket _ _ _ _ h with h1 | h1
    · exact Or.inl h1
    · right
      rw [h1]
      left
      exact ⟨rfl, rfl, _, rfl⟩
  · dsimp only at h
    rcases mem_outbox_emitToSocket _ _ _ _ h with h1 | h1
    · exact Or.inl h1
    · right
      rw [h1]
      right
      exact ⟨by rw [event_mk_name]; decide, rfl⟩

theorem stamped_handleParkingAvailabilityRequest (st : ServerState) (sock : Socket)
    (result : DbResult) (now : String)
    (p : String × Event)
    (h : p ∈ (handleParkingAvailabilityRequest st sock result now).outbox) :
    p ∈ st.outbox ∨ stampedOrError p.2 := by
  unfold handleParkingAvailabilityRequest at h
  cases result with
  | thrown =>
      rcases mem_outbox_emitToSocket _ _ _ _ h with h1 | h1
      · exact Or.inl h1
      · right
        rw [h1]
        left
        exact ⟨rfl, rfl, _, rfl⟩
  | failed =>
      rcases mem_outbox_emitToSocket _ _ _ _ h with h1 | h1
      · exact Or.inl h1
      · right
        rw [h1]
        left
        exact ⟨rfl, rfl, _, rfl⟩
  | ok lots =>
      rcases mem_outbox_emitToSocket _ _ _ _ h with h1 | h1
      · exact Or.inl h1
      · right
        rw [h1]
        right
        exact ⟨by rw [event_mk_name]; decide, rfl⟩

theorem stamped_handleBookingStatusRequest (st : ServerState) (sock : Socket)
    (result : DbResult) (now : String)
    (p : String × Event)
    (h : p ∈ (handleBookingStatusRequest st sock result now).outbox) :
    p ∈ st.outbox ∨ stampedOrError p.2 := by
  unfold handleBookingStatusRequest at h
  cases result with
  | thrown =>
      rcases mem_outbox_emitToSocket _ _ _ _ h with h1 | h1
      · exact Or.inl h1
      · right
        rw [h1]
        left
        exact ⟨rfl, rfl, _, rfl⟩
  | failed =>
      rcases mem_outbox_emitToSocket _ _ _ _ h with h1 | h1
      · exact Or.inl h1
      · right
        rw [h1]
        left
        exact ⟨rfl, rfl, _, rfl⟩
  | ok booking =>
      rcases mem_outbox_emitToSocket _ _ _ _ h with h1 | h1
      · exact Or.inl h1
      · right
        rw [h1]
        right
        exact ⟨by rw [event_mk_name]; decide, rfl⟩

theorem stamped_onGetLiveStats (st : ServerState) (sock : Socket)
    (stats : Option String) (now : String)
    (p : String × Event) (h : p ∈ (onGetLiveStats st sock stats now).outbox) :
    p ∈ st.outbox ∨ stampedOrError p.2 := by
  unfold onGetLiveStats at h
  split at h
  · cases stats with
    | none =>
        rcases mem_outbox_emitToSocket _ _ _ _ h with h1 | h1
        · exact Or.inl h1
        · right
          rw [h1]
          left
          exact ⟨rfl, rfl, _, rfl⟩
    | some s =>
        rcases mem_outbox_emitToSocket _ _ _ _ h with h1 | h1
        · exact Or.inl h1
        · right
          rw [h1]
          right
          exact ⟨by rw [event_mk_name]; decide, rfl⟩
  · exact Or.inl h

theorem stamped_broadcastParkingUpdate (st : ServerState) (lotId : String)
    (upd : List (String × String)) (now : String)
    (p : String × Event) (h : p ∈ (broadcastParkingUpdate st lotId upd now).outbox) :
    p ∈ st.outbox ∨ stampedOrError p.2 := by
  unfold broadcastParkingUpdate at h
  split at h
  · dsimp only at h
    rcases mem_outbox_emitToRoom _ _ _ _ h with h1 | h1
    · rcases mem_outbox_emitToRoom _ _ _ _ h1 with h2 | h2
      · exact Or.inl h2
      · right
        rw [h2]
        right
        exact ⟨by rw [event_mk_name]; decide, by simp [hasField]⟩
    · right
      rw [h1]
      right
      exact ⟨by rw [event_mk_name]; decide, by simp [hasField]⟩
  · exact Or.inl h

theorem stamped_broadcastBookingUpdate (st : ServerState) (userId bookingId : String)
    (upd : List (String × String)) (now : String)
    (p : String × Event)
    (h : p ∈ (broadcastBookingUpdate st userId bookingId upd now).outbox) :
    p ∈ st.outbox ∨ stampedOrError p.2 := by
  unfold broadcastBookingUpdate at h
  split at h
  · dsimp only at h
    rcases mem_outbox_emitToRoom _ _ _ _ h with h1 | h1
    · rcases mem_outbox_emitToRoom _ _ _ _ h1 with h2 | h2
      · exact Or.inl h2
      · right
        rw [h2]
        right
        exact ⟨by rw [event_mk_name]; decide, by simp [hasField]⟩
    · right
      rw [h1]
      right
      exact ⟨by rw [event_mk_name]; decide, by simp [hasField]⟩
  · exact Or.inl h

theorem stamped_broadcastPaymentUpdate (st : ServerState) (userId paymentId : String)
    (upd : List (String × String)) (now : String)
    (p : String × Event)
    (h : p ∈ (broadcastPaymentUpdate st userId paymentId upd now).outbox) :
    p ∈ st.outbox ∨ stampedOrError p.2 := by
  unfold broadcastPaymentUpdate at h
  split at h
  · rcases mem_outbox_emitToRoom _ _ _ _ h with h1 | h1
    · exact Or.inl h1
    · right
      rw [h1]
      right
      exact ⟨by rw [event_mk_name]; decide, by simp [hasField]⟩
  · exact Or.inl h

theorem stamped_broadcastNotification (st : ServerState) (userId : String)
    (notif : List (String × String)) (now : String)
    (p : String × Event) (h : p ∈ (broadcastNotification st userId notif now).outbox) :
    p ∈ st.outbox ∨ stampedOrError p.2 := by
  unfold broadcastNotification at h
  split at h
  · rcases mem_outbox_emitToRoom _ _ _ _ h with h1 | h1
    · exact Or.inl h1
    · right
      rw [h1]
      right
      exact ⟨by rw [event_mk_name]; decide, by simp [hasField]⟩
  · exact Or.inl h

theorem stamped_broadcastSystemAnnouncement (st : ServerState) (message ty now : String)
    (p : String × Event)
    (h : p ∈ (broadcastSystemAnnouncement st message ty now).outbox) :
    p ∈ st.outbox ∨ stampedOrError p.2 := by
  unfold broadcastSystemAnnouncement at h
  split at h
  · rcases mem_outbox_emitToAll _ _ _ h with h1 | h1
    · exact Or.inl h1
    · right
      rw [h1]
      right
      exact ⟨by rw [event_mk_name]; decide, rfl⟩
  · exact Or.inl h

/-- Claim C4 amended: every event newly emitted by any operation either
carries an ISO-8601 timestamp field, or is an error event, and every
error event carries only a message field and no timestamp. -/
theorem C4_amended_stamped_except_error (st : ServerState) (op : Op)
    (p : String × Event) (hmem : p ∈ (step st op).outbox)
    (hold : ¬ p ∈ st.outbox) : stampedOrError p.2 := by
  cases op with
  | connect sock now =>
      rcases stamped_handleConnection st sock now p hmem with h | h
      · exact absurd h hold
      · exact h
  | subscribe sock data now =>
      rcases stamped_handleRoomSubscription st sock data now p hmem with h | h
      · exact absurd h hold
      · exact h
  | unsubscribe sock data now =>
      rcases stamped_handleRoomUnsubscription st sock data now p hmem with h | h
      · exact absurd h hold
      · exact h
  | getParkingAvailability sock result now =>
      rcases stamped_handleParkingAvailabilityRequest st sock result now p hmem with h | h
      · exact absurd h hold
      · exact h
  | getBookingStatus sock result now =>
      rcases stamped_handleBookingStatusRequest st sock result now p hmem with h | h
      · exact absurd h hold
      · exact h
  | getLiveStats sock stats now =>
      rcases stamped_onGetLiveStats st sock stats now p hmem with h | h
      · exact absurd h hold
      · exact h
  | disconnect sock =>
      exact absurd hmem hold
  | parkingUpdate lotId upd now =>
      rcases stamped_broadcastParkingUpdate st lotId upd now p hmem with h | h
      · exact absurd h hold
      · exact h
  | bookingUpdate userId bookingId upd now =>
      rcases stamped_broadcastBookingUpdate st userId bookingId upd now p hmem with h | h
      · exact absurd h hold
      · exact h
  | paymentUpdate userId paymentId upd now =>
      rcases stamped_broadcastPaymentUpdate st userId paymentId upd now p hmem with h | h
      · exact absurd h hold
      · exact h
  | notify userId notif now =>
      rcases stamped_broadcastNotification st userId notif now p hmem with h | h
      · exact absurd h hold
      · exact h
  | announce message ty now =>
      rcases stamped_broadcastSystemAnnouncement st message ty now p hmem with h | h
      · exact absurd h hold
      · exact h

/-- Witness for the amended C4: the connected welcome event emitted for
a concrete admission is timestamped. -/
theorem C4_witness :
    (("n", Event.mk "connected"
        [("message", "Connected to real-time updates"),
         ("userId", "N"), ("timestamp", "t")]) ∈
      (step (initializeWebSocket initialState) (Op.connect sockN "t")).outbox) ∧
    stampedOrError (Event.mk "connected"
      [("message", "Connected to real-time updates"),
       ("userId", "N"), ("timestamp", "t")]) :=
  ⟨by decide,
    C4_amended_stamped_except_error (initializeWebSocket initialState)
      (Op.connect sockN "t")
      ("n", Event.mk "connected"
        [("message", "Connected to real-time updates"),
         ("userId", "N"), ("timestamp", "t")])
      (by decide) (by decide)⟩

/-! Claim C5. -/

/-- Claim C5 as stated fails on the code: the disconnect cleanup is
keyed by userId, so running it for a connection that was already
deregistered (socket a of subject U) removes the registry entry and the
tracked subscriptions of the OTHER, still live connection of the same
subject (socket b): U disconnects socket a, reconnects as socket b and
subscribes to room r; replaying the cleanup for socket a erases the
entry and the subscription of socket b. -/
theorem C5_counterexample :
    mapHas (handleRoomSubscription
        (handleConnection
          (handleDisconnect
            (handleConnection (initializeWebSocket initialState) sockA "t1") sockA)
          sockB "t2") sockB
        { room := some "r", type := some "parking" } "t3").connectedUsers "U" = true ∧
    subscribersOf (handleRoomSubscription
        (handleConnection
          (handleDisconnect
            (handleConnection (initializeWebSocket initialState) sockA "t1") sockA)
          sockB "t2") sockB
        { room := some "r", type := some "parking" } "t3") "r" = ["U"] ∧
    mapHas (disconnectCleanup
        (handleRoomSubscription
          (handleConnection
            (handleDisconnect
              (handleConnection (initializeWebSocket initialState) sockA "t1") sockA)
            sockB "t2") sockB
          { room := some "r", type := some "parking" } "t3")
        sockA).connectedUsers "U" = false ∧
    subscribersOf (disconnectCleanup
        (handleRoomSubscription
          (handleConnection
            (handleDisconnect
              (handleConnection (initializeWebSocket initialState) sockA "t1") sockA)
            sockB "t2") sockB
          { room := some "r", type := some "parking" } "t3")
        sockA) "r" = [] := by
  decide

/-- Claim C5 amended: the disconnect cleanup never raises (it is a
total function) and leaves the registry entry and the tracked topic
membership of every subject OTHER than the disconnected socket's
subject unchanged; connections sharing the disconnected socket's
subject-id are wiped with it (registry and tracking are keyed by
subject-id), per the counterexample. -/
theorem C5_amended_cleanup_other_subjects (st : ServerState) (sock : Socket)
    (u room : String) (hnd : (st.roomSubscriptions.map Prod.fst).Nodup)
    (hne : ¬ u = sock.userId) :
    mapGet (disconnectCleanup st sock).connectedUsers u = mapGet st.connectedUsers u ∧
    (u ∈ subscribersOf (disconnectCleanup st sock) room ↔ u ∈ subscribersOf st room) := by
  constructor
  · exact mapGet_mapDelete_ne st.connectedUsers sock.userId u hne
  · exact cleanup_mem st.roomSubscriptions sock.userId u room hnd hne

/-- Witness for the amended C5: subject M disconnects; the registry
entry and the room-r membership of subject N are untouched. -/
theorem C5_witness :
    mapGet (disconnectCleanup
        (handleRoomSubscription
          (handleConnection (initializeWebSocket initialState) sockN "t") sockN
          { room := some "r", type := some "parking" } "t2")
        sockM).connectedUsers "N" =
      mapGet (handleRoomSubscription
          (handleConnection (initializeWebSocket initialState) sockN "t") sockN
          { room := some "r", type := some "parking" } "t2").connectedUsers "N" ∧
    ("N" ∈ subscribersOf (disconnectCleanup
        (handleRoomSubscription
          (handleConnection (initializeWebSocket initialState) sockN "t") sockN
          { room := some "r", type := some "parking" } "t2")
        sockM) "r" ↔
      "N" ∈ subscribersOf (handleRoomSubscription
          (handleConnection (initializeWebSocket initialState) sockN "t") sockN
          { room := some "r", type := some "parking" } "t2") "r") :=
  C5_amended_cleanup_other_subjects
    (handleRoomSubscription
      (handleConnection (initializeWebSocket initialState) sockN "t") sockN
      { room := some "r", type := some "parking" } "t2")
    sockM "N" "r" (by decide) (by decide)

theorem emitToSocket_roomSubscriptions (st : ServerState) (sid : String) (e : Event) :
    (emitToSocket st sid e).roomSubscriptions = st.roomSubscriptions := rfl

theorem mapSet_keys_nodup {α : Type} (m : List (String × α)) (k : String) (v : α)
    (hnd : (m.map Prod.fst).Nodup) : ((mapSet m k v).map Prod.fst).Nodup := by
  unfold mapSet
  by_cases hh : mapHas m k = true
  · rw [if_pos hh]
    have heq : (m.map (fun p => if p.1 = k then (k, v) else p)).map Prod.fst =
        m.map Prod.fst := by
      rw [List.map_map]
      apply List.map_congr_left
      intro p hp
      by_cases hpk : p.1 = k
      · simp [hpk]
      · simp [hpk]
    rw [heq]
    exact hnd
  · rw [if_neg hh, List.map_append]
    apply List.Nodup.append hnd (List.nodup_singleton k)
    intro a ha hb
    have hak : a = k := List.mem_singleton.mp hb
    subst hak
    rcases List.mem_map.mp ha with ⟨p, hp, hpk⟩
    exact hh ((mapHas_iff_exists m a).mpr ⟨p, hp, hpk⟩)

/-- The roomSubscriptions map after a successful subscribe: the userId
is added to the (lazily created) set of the requested room. -/
theorem handleRoomSubscription_success (st : ServerState) (sock : Socket)
    (data : SubscribeData) (now : String)
    (hcond : (falsy data.room || falsy data.type) = false)
    (hgate : ¬ (data.type = some "admin" ∧ ¬ sock.userRole = "admin")) :
    (handleRoomSubscription st sock data now).roomSubscriptions =
      mapSet st.roomSubscriptions (data.room.getD "")
        (setAdd (subscribersOf st (data.room.getD "")) sock.userId) := by
  unfold handleRoomSubscription
  rw [hcond]
  simp only [Bool.false_eq_true, if_false]
  rw [if_neg hgate]
  simp only [emitToSocket_roomSubscriptions, socketJoin_roomSubscriptions]
  rfl

/-! Claim C7. -/

/-- Claim C7: subscribing the same connection to the same topic twice
yields exactly one membership: the second identical subscribe leaves
the roomSubscriptions map unchanged, and the subscriber set of the
topic reports the userId exactly once (the tracking set is a JS Set,
line 147). -/
theorem C7_subscribe_idempotent (st : ServerState) (sock : Socket)
    (data : SubscribeData) (n1 n2 : String)
    (hnd : (st.roomSubscriptions.map Prod.fst).Nodup)
    (hroom : falsy data.room = false) (htype : falsy data.type = false)
    (hgate : ¬ (data.type = some "admin" ∧ ¬ sock.userRole = "admin"))
    (hfresh : countOcc sock.userId (subscribersOf st (data.room.getD "")) = 0) :
    (handleRoomSubscription (handleRoomSubscription st sock data n1) sock data
        n2).roomSubscriptions =
      (handleRoomSubscription st sock data n1).roomSubscriptions ∧
    countOcc sock.userId
      (subscribersOf
        (handleRoomSubscription (handleRoomSubscription st sock data n1) sock data n2)
        (data.room.getD "")) = 1 := by
  have hcond : (falsy data.room || falsy data.type) = false := by
    rw [hroom, htype]
    rfl
  have e1 := handleRoomSubscription_success st sock data n1 hcond hgate
  have e2 := handleRoomSubscription_success (handleRoomSubscription st sock data n1)
    sock data n2 hcond hgate
  have hget1 : mapGet (handleRoomSubscription st sock data n1).roomSubscriptions
      (data.room.getD "") =
      some (setAdd (subscribersOf st (data.room.getD "")) sock.userId) := by
    rw [e1]
    exact mapGet_mapSet_self _ _ _
  have hsub1 : subscribersOf (handleRoomSubscription st sock data n1)
      (data.room.getD "") =
      setAdd (subscribersOf st (data.room.getD "")) sock.userId := by
    unfold subscribersOf
    rw [hget1]
    rfl
  have hnd1 : ((handleRoomSubscription st sock data n1).roomSubscriptions.map
      Prod.fst).Nodup := by
    rw [e1]
    exact mapSet_keys_nodup _ _ _ hnd
  have hfix : (handleRoomSubscription (handleRoomSubscription st sock data n1) sock
      data n2).roomSubscriptions =
      (handleRoomSubscription st sock data n1).roomSubscriptions := by
    rw [e2]
    have hAdd2 : setAdd (subscribersOf (handleRoomSubscription st sock data n1)
        (data.room.getD "")) sock.userId =
        subscribersOf (handleRoomSubscription st sock data n1) (data.room.getD "") := by
      rw [hsub1]
      exact setAdd_of_mem _ _ (mem_setAdd_self _ _)
    rw [hAdd2]
    apply mapSet_eq_self _ _ _ hnd1
    rw [hsub1]
    exact hget1
  refine ⟨hfix, ?_⟩
  have : subscribersOf (handleRoomSubscription (handleRoomSubscription st sock data n1)
      sock data n2) (data.room.getD "") =
      subscribersOf (handleRoomSubscription st sock data n1) (data.room.getD "") := by
    unfold subscribersOf
    rw [hfix]
  rw [this, hsub1]
  apply countOcc_setAdd
  exact (countOcc_eq_zero _ _).mp hfresh

/-- Witness for C7 at a concrete connection subscribing twice to
room r. -/
theorem C7_witness :
    (handleRoomSubscription
        (handleRoomSubscription (handleConnection (initializeWebSocket initialState)
          sockN "t") sockN { room := some "r", type := some "parking" } "t1") sockN
        { room := some "r", type := some "parking" } "t2").roomSubscriptions =
      (handleRoomSubscription (handleConnection (initializeWebSocket initialState)
          sockN "t") sockN
        { room := some "r", type := some "parking" } "t1").roomSubscriptions ∧
    countOcc "N"
      (subscribersOf
        (handleRoomSubscription
          (handleRoomSubscription (handleConnection (initializeWebSocket initialState)
            sockN "t") sockN { room := some "r", type := some "parking" } "t1") sockN
          { room := some "r", type := some "parking" } "t2") "r") = 1 :=
  C7_subscribe_idempotent
    (handleConnection (initializeWebSocket initialState) sockN "t") sockN
    { room := some "r", type := some "parking" } "t1" "t2"
    (by decide) (by decide) (by decide) (by decide) (by decide)

theorem socketLeave_roomSubscriptions (st : ServerState) (sid room : String) :
    (socketLeave st sid room).roomSubscriptions = st.roomSubscriptions := rfl

theorem handleConnection_roomSubscriptions (st : ServerState) (sock : Socket)
    (now : String) :
    (handleConnection st sock now).roomSubscriptions = st.roomSubscriptions := by
  unfold handleConnection
  dsimp only
  by_cases hr : sock.userRole = "admin"
  · rw [if_pos hr, emitToSocket_roomSubscriptions, socketJoin_roomSubscriptions,
      socketJoin_roomSubscriptions]
  · rw [if_neg hr, emitToSocket_roomSubscriptions, socketJoin_roomSubscriptions]

theorem onGetLiveStats_roomSubscriptions (st : ServerState) (sock : Socket)
    (stats : Option String) (now : String) :
    (onGetLiveStats st sock stats now).roomSubscriptions = st.roomSubscriptions := by
  unfold onGetLiveStats
  split
  · cases stats with
    | none => rfl
    | some sv => rfl
  · rfl

theorem handleParkingAvailabilityRequest_roomSubscriptions (st : ServerState)
    (sock : Socket) (result : DbResult) (now : String) :
    (handleParkingAvailabilityRequest st sock result now).roomSubscriptions =
      st.roomSubscriptions := by
  unfold handleParkingAvailabilityRequest
  cases result with
  | thrown => rfl
  | failed => rfl
  | ok lots => rfl

theorem handleBookingStatusRequest_roomSubscriptions (st : ServerState)
    (sock : Socket) (result : DbResult) (now : String) :
    (handleBookingStatusRequest st sock result now).roomSubscriptions =
      st.roomSubscriptions := by
  unfold handleBookingStatusRequest
  cases result with
  | thrown => rfl
  | failed => rfl
  | ok booking => rfl

theorem broadcastParkingUpdate_roomSubscriptions (st : ServerState) (lotId : String)
    (upd : List (String × String)) (now : String) :
    (broadcastParkingUpdate st lotId upd now).roomSubscriptions =
      st.roomSubscriptions := by
  unfold broadcastParkingUpdate
  split
  · rfl
  · rfl

theorem broadcastBookingUpdate_roomSubscriptions (st : ServerState)
    (userId bookingId : String) (upd : List (String × String)) (now : String) :
    (broadcastBookingUpdate st userId bookingId upd now).roomSubscriptions =
      st.roomSubscriptions := by
  unfold broadcastBookingUpdate
  split
  · rfl
  · rfl

theorem broadcastPaymentUpdate_roomSubscriptions (st : ServerState)
    (userId paymentId : String) (upd : List (String × String)) (now : String) :
    (broadcastPaymentUpdate st userId paymentId upd now).roomSubscriptions =
      st.roomSubscriptions := by
  unfold broadcastPaymentUpdate
  split
  · rfl
  · rfl

theorem broadcastNotification_roomSubscriptions (st : ServerState) (userId : String)
    (notif : List (String × String)) (now : String) :
    (broadcastNotification st userId notif now).roomSubscriptions =
      st.roomSubscriptions := by
  unfold broadcastNotification
  split
  · rfl
  · rfl

theorem broadcastSystemAnnouncement_roomSubscriptions (st : ServerState)
    (message ty now : String) :
    (broadcastSystemAnnouncement st message ty now).roomSubscriptions =
      st.roomSubscriptions := by
  unfold broadcastSystemAnnouncement
  split
  · rfl
  · rfl

theorem mapHas_of_cleanup (m : List (String × List String)) (uid r : String)
    (h : mapHas ((m.map (fun p => (p.1, setDelete p.2 uid))).filter
        (fun p => ¬ p.2.length = 0)) r = true) : mapHas m r = true := by
  rcases (mapHas_iff_exists _ r).mp h with ⟨q, hq, hqr⟩
  have hq2 := (List.mem_filter.mp hq).1
  rcases List.mem_map.mp hq2 with ⟨w, hw, hwe⟩
  apply (mapHas_iff_exists m r).mpr
  refine ⟨w, hw, ?_⟩
  rw [← hqr, ← hwe]

theorem handleRoomUnsubscription_roomSubscriptions (st : ServerState) (sock : Socket)
    (data : UnsubscribeData) (now : String) (hc : falsy data.room = false) :
    (handleRoomUnsubscription st sock data now).roomSubscriptions =
      (if mapHas st.roomSubscriptions (data.room.getD "") then
        (if (setDelete ((mapGet st.roomSubscriptions (data.room.getD "")).getD [])
            sock.userId).length = 0 then
          mapDelete st.roomSubscriptions (data.room.getD "")
        else
          mapSet st.roomSubscriptions (data.room.getD "")
            (setDelete ((mapGet st.roomSubscriptions (data.room.getD "")).getD [])
              sock.userId))
      else st.roomSubscriptions) := by
  unfold handleRoomUnsubscription
  rw [hc]
  simp only [Bool.false_eq_true, if_false]
  simp only [emitToSocket_roomSubscriptions, socketLeave_roomSubscriptions]

/-! Claim C6. -/

/-- Claim C6: after every operation, every topic of the
roomSubscriptions index with zero subscribers is absent (empty sets are
deleted on unsubscribe, line 166-168, and on disconnect, lines
108-110), and a topic enters the index only through a subscribe naming
that room (lazy creation, lines 144-146). -/
theorem C6_no_empty_topic (st : ServerState) (op : Op) (h : noEmptyTopics st) :
    noEmptyTopics (step st op) ∧
    (∀ room, mapHas (step st op).roomSubscriptions room = true →
      mapHas st.roomSubscriptions room = true ∨
      ∃ sock data now, op = Op.subscribe sock data now ∧ data.room = some room) := by
  cases op with
  | connect sock now =>
      have he := handleConnection_roomSubscriptions st sock now
      simp only [step]
      constructor
      · intro p hp
        rw [he] at hp
        exact h p hp
      · intro room hr
        rw [he] at hr
        exact Or.inl hr
  | subscribe sock data now =>
      simp only [step]
      unfold handleRoomSubscription
      split
      · exact ⟨fun p hp => h p hp, fun room hr => Or.inl hr⟩
      · split
        · exact ⟨fun p hp => h p hp, fun room hr => Or.inl hr⟩
        next hc1 hc2 =>
          constructor
          · intro p hp
            have hp2 : p ∈ mapSet
                (socketJoin st sock.sid (data.room.getD "")).roomSubscriptions
                (data.room.getD "")
                (setAdd ((mapGet (socketJoin st sock.sid
                    (data.room.getD "")).roomSubscriptions
                  (data.room.getD "")).getD []) sock.userId) := hp
            rcases mem_of_mem_mapSet _ _ _ p hp2 with h1 | h1
            · rw [socketJoin_roomSubscriptions] at h1
              exact h p h1
            · rw [h1]
              intro hc
              exact setAdd_ne_nil _ _ hc
          · intro room hr
            have hr2 : mapHas (mapSet
                (socketJoin st sock.sid (data.room.getD "")).roomSubscriptions
                (data.room.getD "")
                (setAdd ((mapGet (socketJoin st sock.sid
                    (data.room.getD "")).roomSubscriptions
                  (data.room.getD "")).getD []) sock.userId)) room = true := hr
            rcases mapHas_of_mapHas_mapSet _ _ _ _ hr2 with h1 | h1
            · rw [socketJoin_roomSubscriptions] at h1
              exact Or.inl h1
            · right
              refine ⟨sock, data, now, rfl, ?_⟩
              have hb : (falsy data.room || falsy data.type) = false :=
                Bool.eq_false_iff.mpr hc1
              have hfr : falsy data.room = false := by
                rcases Bool.or_eq_false_iff.mp hb with ⟨h2, _⟩
                exact h2
              cases hdr : data.room with
              | none =>
                  rw [hdr] at hfr
                  simp [falsy] at hfr
              | some r =>
                  rw [hdr] at h1
                  simp at h1
                  rw [h1]
  | unsubscribe sock data now =>
      simp only [step]
      by_cases hfr : falsy data.room = true
      · have he : (handleRoomUnsubscription st sock data now).roomSubscriptions =
            st.roomSubscriptions := by
          unfold handleRoomUnsubscription
          rw [hfr]
          simp only [if_true]
          rfl
        constructor
        · intro p hp
          rw [he] at hp
          exact h p hp
        · intro room hr
          rw [he] at hr
          exact Or.inl hr
      · have he := handleRoomUnsubscription_roomSubscriptions st sock data now
          (Bool.eq_false_iff.mpr hfr)
        by_cases hhas : mapHas st.roomSubscriptions (data.room.getD "") = true
        · rw [if_pos hhas] at he
          by_cases hlen : (setDelete ((mapGet st.roomSubscriptions
              (data.room.getD "")).getD []) sock.userId).length = 0
          · rw [if_pos hlen] at he
            constructor
            · intro p hp
              rw [he] at hp
              exact h p (List.mem_filter.mp hp).1
            · intro room hr
              rw [he] at hr
              exact Or.inl (mapHas_of_mapHas_mapDelete _ _ _ hr)
          · rw [if_neg hlen] at he
            constructor
            · intro p hp
              rw [he] at hp
              rcases mem_of_mem_mapSet _ _ _ p hp with h1 | h1
              · exact h p h1
              · rw [h1]
                intro hc
                apply hlen
                have hc2 : setDelete ((mapGet st.roomSubscriptions
                    (data.room.getD "")).getD []) sock.userId = [] := hc
                rw [hc2]
                rfl
            · intro room hr
              rw [he] at hr
              rcases mapHas_of_mapHas_mapSet _ _ _ _ hr with h1 | h1
              · exact Or.inl h1
              · rw [h1]
                exact Or.inl hhas
        · rw [if_neg hhas] at he
          constructor
          · intro p hp
            rw [he] at hp
            exact h p hp
          · intro room hr
            rw [he] at hr
            exact Or.inl hr
  | getParkingAvailability sock result now =>
      have he := handleParkingAvailabilityRequest_roomSubscriptions st sock result now
      simp only [step]
      constructor
      · intro p hp
        rw [he] at hp
        exact h p hp
      · intro room hr
        rw [he] at hr
        exact Or.inl hr
  | getBookingStatus sock result now =>
      have he := handleBookingStatusRequest_roomSubscriptions st sock result now
      simp only [step]
      constructor
      · intro p hp
        rw [he] at hp
        exact h p hp
      · intro room hr
        rw [he] at hr
        exact Or.inl hr
  | getLiveStats sock stats now =>
      have he := onGetLiveStats_roomSubscriptions st sock stats now
      simp only [step]
      constructor
      · intro p hp
        rw [he] at hp
        exact h p hp
      · intro room hr
        rw [he] at hr
        exact Or.inl hr
  | disconnect sock =>
      simp only [step]
      constructor
      · intro p hp
        have hp2 : p ∈ (st.roomSubscriptions.map
            (fun p => (p.1, setDelete p.2 sock.userId))).filter
            (fun p => ¬ p.2.length = 0) := hp
        have h2 := (List.mem_filter.mp hp2).2
        have h3 : ¬ p.2.length = 0 := of_decide_eq_true h2
        intro hc
        apply h3
        rw [hc]
        rfl
      · intro room hr
        have hr2 : mapHas ((st.roomSubscriptions.map
            (fun p => (p.1, setDelete p.2 sock.userId))).filter
            (fun p => ¬ p.2.length = 0)) room = true := hr
        exact Or.inl (mapHas_of_cleanup _ _ _ hr2)
  | parkingUpdate lotId upd now =>
      have he := broadcastParkingUpdate_roomSubscriptions st lotId upd now
      simp only [step]
      constructor
      · intro p hp
        rw [he] at hp
        exact h p hp
      · intro room hr
        rw [he] at hr
        exact Or.inl hr
  | bookingUpdate userId bookingId upd now =>
      have he := broadcastBookingUpdate_roomSubscriptions st userId bookingId upd now
      simp only [step]
      constructor
      · intro p hp
        rw [he] at hp
        exact h p hp
      · intro room hr
        rw [he] at hr
        exact Or.inl hr
  | paymentUpdate userId paymentId upd now =>
      have he := broadcastPaymentUpdate_roomSubscriptions st userId paymentId upd now
      simp only [step]
      constructor
      · intro p hp
        rw [he] at hp
        exact h p hp
      · intro room hr
        rw [he] at hr
        exact Or.inl hr
  | notify userId notif now =>
      have he := broadcastNotification_roomSubscriptions st userId notif now
      simp only [step]
      constructor
      · intro p hp
        rw [he] at hp
        exact h p hp
      · intro room hr
        rw [he] at hr
        exact Or.inl hr
  | announce message ty now =>
      have he := broadcastSystemAnnouncement_roomSubscriptions st message ty now
      simp only [step]
      constructor
      · intro p hp
        rw [he] at hp
        exact h p hp
      · intro room hr
        rw [he] at hr
        exact Or.inl hr

/-- Witness for C6: one unsubscribe that empties room r deletes the
topic from the index of a concrete state. -/
theorem C6_witness :
    noEmptyTopics (step
      (handleRoomSubscription (handleConnection (initializeWebSocket initialState)
        sockN "t") sockN { room := some "r", type := some "parking" } "t1")
      (Op.unsubscribe sockN { room := some "r" } "t2")) ∧
    (∀ room, mapHas (step
        (handleRoomSubscription (handleConnection (initializeWebSocket initialState)
          sockN "t") sockN { room := some "r", type := some "parking" } "t1")
        (Op.unsubscribe sockN { room := some "r" } "t2")).roomSubscriptions room = true →
      mapHas (handleRoomSubscription (handleConnection (initializeWebSocket initialState)
          sockN "t") sockN
        { room := some "r", type := some "parking" } "t1").roomSubscriptions room = true ∨
      ∃ sock data now,
        Op.unsubscribe sockN { room := some "r" } "t2" = Op.subscribe sock data now ∧
        data.room = some room) :=
  C6_no_empty_topic
    (handleRoomSubscription (handleConnection (initializeWebSocket initialState)
      sockN "t") sockN { room := some "r", type := some "parking" } "t1")
    (Op.unsubscribe sockN { room := some "r" } "t2")
    (by
      intro p hp
      have hp2 : p ∈ [("r", ["N"])] := hp
      rw [List.mem_singleton.mp hp2]
      decide)

end WebsocketService
